import Mathlib

/-!
Verification development for the OpenSesame OSF extension: a shallow
embedding of the synchronization and link-state reconciliation subsystem
(session wrapper, API endpoint construction, version reconciliation,
data-file upload preparation, event dispatcher), with theorems settling
the specification's testable properties against the embedded code.
-/

/-- Python string truthiness: a string is truthy iff it is nonempty. -/
def pyTruthy (s : String) : Bool := !s.data.isEmpty

/-- Python membership test `c in s` for a single character. -/
def pyContains (s : String) (c : Char) : Bool := s.data.contains c

/-- Auxiliary worker for pySplit, accumulating the current field in
reverse. -/
def pySplitAux (sep : Char) : List Char → List Char → List (List Char)
  | [], acc => [acc.reverse]
  | x :: xs, acc =>
    if x == sep then acc.reverse :: pySplitAux sep xs []
    else pySplitAux sep xs (x :: acc)

/-- Python str.split with a one-character separator: splits at every
occurrence, keeping empty fields (so the empty string yields one empty
field). -/
def pySplit (s : String) (sep : Char) : List String :=
  (pySplitAux sep s.data []).map List.asString

deriving instance DecidableEq for Except

/-- Auxiliary character-level worker for Python positional format: each
occurrence of the placeholder pair of braces consumes one argument; if the
arguments run out, Python raises IndexError, modelled by none. -/
def pyFormatAux : List Char → List String → Option (List Char)
  | [], _ => some []
  | '\x7b' :: '\x7d' :: _, [] => none
  | '\x7b' :: '\x7d' :: rest, a :: as => (pyFormatAux rest as).map (fun t => a.data ++ t)
  | c :: rest, as => (pyFormatAux rest as).map (fun t => c :: t)

/-- Python str.format with positional placeholder pairs of braces only,
as used by the api_calls templates. -/
def pyFormat (tmpl : String) (args : List String) : Option String :=
  (pyFormatAux tmpl.data args).map List.asString

/-- Python exceptions that the embedded fragments can raise. -/
inductive PyError where
  | valueError
  | keyError (key : String)
  | indexError
deriving DecidableEq

/-- Base URL of the OSF API (connection.py, api_base_url). -/
def api_base_url : String := "https://test-api.osf.io/v2/"

/-- Endpoint template table (connection.py, api_calls). The first four
entries are the in-repo table. Modelled from the spec: the extension module
resolves its endpoints through the split-off QOpenScienceFramework library,
whose template table is not under src/; the spec's remote API surface names
a single-file-info endpoint `file_info(id)` returning file/folder entity
detail, embedded here as the files/<id> template. -/
def api_calls : List (String × String) :=
  [("logged_in_user", "users/me"),
   ("projects", "users/me/nodes"),
   ("project_repos", "nodes/\x7b\x7d/files"),
   ("repo_files", "nodes/\x7b\x7d/files/\x7b\x7d"),
   ("file_info", "files/\x7b\x7d")]

/-- Embedding of connection.api_call: look up the named template (Python
raises KeyError when the name is unknown) and interpolate the positional
arguments. -/
def api_call (command : String) (args : List String) : Except PyError String :=
  match api_calls.lookup command with
  | none => .error (.keyError command)
  | some tmpl =>
    match pyFormat tmpl args with
    | none => .error .indexError
    | some s => .ok (api_base_url ++ s)

/-- Embedding of OpenScienceFramework.get_osf_node_url: an id containing
the colon delimiter is unpacked as a project-id / repository-name pair
(Python tuple unpacking raises ValueError unless the split has exactly two
parts) and resolved through the repo_files template; any other id is
resolved through the file_info template. -/
def get_osf_node_url (node_id : String) : Except PyError String :=
  if pyContains node_id ':' then
    match pySplit node_id ':' with
    | [project_id, repo] => api_call "repo_files" [project_id, repo]
    | _ => .error .valueError
  else
    api_call "file_info" [node_id]

/-- Observable actions performed by compare_versions, in program order:
the warnings.warn call of the invalid-file early return, the attempt to
open and hash a local file, the notifier.info call of the in-sync branch,
one execution of the version-choice dialog, one execution of the
backup-confirmation question, the shutil.copy of the local file to a
backup destination, and the manager.download_file call (url, destination). -/
inductive Effect where
  | warn
  | hashAttempt (path : String)
  | notifyInfo
  | versionDialog
  | backupQuestion
  | backupCopy (dst : String)
  | download (url : String) (dest : String)
deriving DecidableEq

/-- Abstract local filesystem: which paths name existing files, and the
SHA-256 hex digest of each file's full contents. -/
structure FileSystem where
  isfile : String → Bool
  sha256 : String → String

/-- Embedding of hashfile: opening a path that does not name a file raises
IOError, modelled by none; otherwise the digest of the full contents. -/
def hashfile (fs : FileSystem) (path : String) : Option String :=
  if fs.isfile path then some (fs.sha256 path) else none

/-- Subtree of the remote JSON record reached from data.data that
compare_versions reads; a none field means the corresponding key (or a key
on the path to it) is absent, so that the Python subscript raises KeyError. -/
structure RemoteFileRecord where
  sha256 : Option String
  name : Option String
  size : Option Nat
  date_modified : Option String
  download_link : Option String
deriving DecidableEq

/-- Outcome of the version-choice dialog once the user answers it (the
dialog is re-shown in a loop as long as it is closed without an answer). -/
inductive VersionChoice where
  | useLocal
  | useRemote
deriving DecidableEq

/-- Model of the user's interaction with compare_versions: the number of
times the version-choice dialog is closed without an answer before the
final choice, the final choice, the number of times the user answers Yes to
the backup question but cancels the save-file dialog before the final
backup answer, and the final backup answer (none = No, some d = Yes with
destination d). -/
structure UserChoices where
  dialogCloses : Nat
  choice : VersionChoice
  backupCancels : Nat
  backupDecision : Option String
deriving DecidableEq

/-- Control outcome of compare_versions: the silent early return when no
valid local file is opened, the raised OSFInvalidResponse on a malformed
remote record, the raised IOError when hashing fails, the raised KeyError
on a missing download link, the in-sync return, the return after the user
keeps the local version, and the handing over to the download machinery. -/
inductive CompareOutcome where
  | noValidFile
  | invalidResponse
  | ioError
  | keyErrorRaised
  | inSync
  | keptLocal
  | downloadStarted
deriving DecidableEq

/-- Embedding of OpenScienceFramework.compare_versions, returning the
effect trace in program order together with the control outcome. The guard
line is translated with Python operator precedence and truthiness:
(local_file and not isfile(local_file)) or (local_file is None). -/
def compare_versions (fs : FileSystem) (local_file : Option String)
    (data : RemoteFileRecord) (user : UserChoices) :
    List Effect × CompareOutcome :=
  let guard := (match local_file with
    | some p => pyTruthy p && !fs.isfile p
    | none => false) || local_file.isNone
  if guard then ([.warn], .noValidFile)
  else
    match data.sha256 with
    | none => ([], .invalidResponse)
    | some remote_hash =>
      let p := local_file.getD ""
      match hashfile fs p with
      | none => ([.hashAttempt p], .ioError)
      | some local_hash =>
        if remote_hash == local_hash then
          ([.hashAttempt p, .notifyInfo], .inSync)
        else
          match data.name, data.size, data.date_modified with
          | some _, some _, some _ =>
            let dialogs := List.replicate (user.dialogCloses + 1) Effect.versionDialog
            match user.choice with
            | .useLocal => (.hashAttempt p :: dialogs, .keptLocal)
            | .useRemote =>
              let backups := List.replicate (user.backupCancels + 1) Effect.backupQuestion
              let backupFx := match user.backupDecision with
                | none => backups
                | some d => backups ++ [.backupCopy d]
              match data.download_link with
              | none =>
                (.hashAttempt p :: dialogs ++ backupFx, .keyErrorRaised)
              | some url =>
                (.hashAttempt p :: dialogs ++ backupFx ++ [.download url p],
                  .downloadStarted)
          | _, _, _ => ([.hashAttempt p], .invalidResponse)

/-- Predicate selecting download effects. -/
def isDownload : Effect → Bool
  | .download _ _ => true
  | _ => false

/-- Predicate selecting informational notifications. -/
def isNotifyInfo : Effect → Bool
  | .notifyInfo => true
  | _ => false

/-- Predicate selecting version-choice dialog presentations. -/
def isVersionDialog : Effect → Bool
  | .versionDialog => true
  | _ => false

/-- Predicate selecting effects that write to the given local path: a
download with that destination or a backup copy to it. -/
def writesTo (p : String) : Effect → Bool
  | .download _ dest => dest == p
  | .backupCopy d => d == p
  | _ => false

/-- OAuth2 token as used by the session wrapper: only the expires_at
timestamp (seconds) is consulted. -/
structure Token where
  expires_at : Int
deriving DecidableEq

/-- OAuth2 session state: whether the session is authorized (a token is
present), and the token. The token field is only consulted when the
session is authorized. -/
structure OAuthSession where
  authorized : Bool
  token : Token
deriving DecidableEq

/-- Embedding of connection.reset_session: a fresh unauthenticated session. -/
def reset_session : OAuthSession := ⟨false, ⟨0⟩⟩

/-- The server detail message the wrapper recognizes as an invalid-token
response. -/
def invalid_token_msg : String := "User provided an invalid OAuth2 access token"

/-- Decoded JSON response body as inspected by the wrapper: errorsDetail is
some d when the decoded dict has an errors key whose first entry carries
detail d, and none when the dict has no errors key. -/
structure BodyDict where
  errorsDetail : Option String
deriving DecidableEq

/-- HTTP response handed back by the requests layer: the status code and
the JSON body, none when the body is not JSON-decodable (e.g. a 204
empty response or an HTML error page). -/
structure HttpResponse where
  status_code : Nat
  body : Option BodyDict
deriving DecidableEq

/-- Result value of a wrapped call: False returned to an unauthenticated
caller, a raised TokenError, a raised generic Exception with the server
detail, the decoded dict returned on success, or the raw (undecodable)
response object returned as-is. -/
inductive CallRes where
  | notAuthorizedFalse
  | tokenError
  | genericError (msg : String)
  | jsonResult (body : BodyDict)
  | rawResponse (status : Nat)
deriving DecidableEq

/-- Whether a wrapped-call result corresponds to a raised exception. -/
def raisesError : CallRes → Bool
  | .tokenError => true
  | .genericError _ => true
  | _ => false

/-- Response post-processing shared by every call wrapped in
requires_authentication: try to decode the body to JSON; a decoded dict
containing an errors entry raises TokenError for the invalid-token detail
and a generic Exception otherwise; a dict without errors is returned; an
undecodable body returns the raw response object (with only logging). -/
def process_response (resp : HttpResponse) : CallRes :=
  match resp.body with
  | some body =>
    match body.errorsDetail with
    | some msg =>
      if msg == invalid_token_msg then .tokenError else .genericError msg
    | none => .jsonResult body
  | none => .rawResponse resp.status_code

/-- Result of a call through the requires_authentication wrapper:
whether the wrapped HTTP request was dispatched at all, and the result
value or raised error. -/
structure WrappedCall where
  dispatched : Bool
  result : CallRes
deriving DecidableEq

/-- Embedding of the connection.requires_authentication wrapper around a
plain GET-style call: returns False when unauthorized; raises TokenError
when the token's expires_at is strictly below the current time; otherwise
dispatches the HTTP request (whose response is the resp argument) and
post-processes it. -/
def requires_authentication (s : OAuthSession) (now : Int)
    (resp : HttpResponse) : WrappedCall :=
  if !s.authorized then ⟨false, .notAuthorizedFalse⟩
  else if s.token.expires_at < now then ⟨false, .tokenError⟩
  else ⟨true, process_response resp⟩

/-- Result of the wrapped logout call: whether the HTTP POST was
dispatched, the session object after the call, the number of logout
transitions emitted to listeners, and the result value or raised error. -/
structure LogoutOutcome where
  dispatched : Bool
  session : OAuthSession
  logoutEvents : Nat
  result : CallRes
deriving DecidableEq

/-- Embedding of connection.logout (wrapped in requires_authentication):
after the wrapper's pre-checks the POST to the revocation endpoint is
dispatched; on a 204 response the global session is replaced by a fresh
unauthenticated one and logged_out() emits one logout transition, while
any other status only logs a debug message; the wrapper then post-processes
the returned response. -/
def logout (s : OAuthSession) (now : Int) (resp : HttpResponse) :
    LogoutOutcome :=
  if !s.authorized then ⟨false, s, 0, .notAuthorizedFalse⟩
  else if s.token.expires_at < now then ⟨false, s, 0, .tokenError⟩
  else if resp.status_code == 204 then
    ⟨true, reset_session, 1, process_response resp⟩
  else
    ⟨true, s, 0, process_response resp⟩

/-- Listener object as seen by the event dispatcher through runtime
reflection: hasHandler n is true iff the object has an attribute named n
that is a bound method. -/
structure Listener where
  hasHandler : String → Bool

namespace EventDispatcher

/-- Events the dispatcher can emit (the class attribute events). -/
def events : List String := ["login", "logout"]

/-- Worker for check_events: walk the event list and raise NameError
(naming the first missing handler) as soon as a handler is absent. -/
def check_events_aux (item : Listener) : List String → Except String Unit
  | [] => .ok ()
  | e :: rest =>
    if item.hasHandler ("handle_" ++ e) then check_events_aux item rest
    else .error ("handle_" ++ e)

/-- Embedding of EventDispatcher.__check_events over the dispatcher's
event list. -/
def check_events (item : Listener) : Except String Unit :=
  check_events_aux item events

/-- Whether a listener passes check_events (has a handler for every
event). -/
def listener_ok (item : Listener) : Bool :=
  match check_events item with
  | .ok _ => true
  | .error _ => false

/-- Argument of EventDispatcher.add: a single listener or a Python list of
listeners (the code branches on type(obj) == list). -/
inductive AddArg where
  | single (l : Listener)
  | listArg (ls : List Listener)

/-- Worker checking every member of a listener list, raising the first
NameError encountered (this check runs to completion before any mutation
of the listener list). -/
def check_all : List Listener → Except String Unit
  | [] => .ok ()
  | l :: rest =>
    match check_events l with
    | .ok _ => check_all rest
    | .error e => .error e

/-- Embedding of EventDispatcher.add: a list argument has each member
checked before the listener list is extended with all of them; a single
argument is checked before being appended. On error the listener list is
returned to its caller unchanged (the mutation never executes). -/
def add (listeners : List Listener) (obj : AddArg) :
    Except String (List Listener) :=
  match obj with
  | .listArg ls =>
    match check_all ls with
    | .ok _ => .ok (listeners ++ ls)
    | .error e => .error e
  | .single l =>
    match check_events l with
    | .ok _ => .ok (listeners ++ [l])
    | .error e => .error e

/-- Errors dispatch can raise: ValueError for an unknown event, NameError
when a registered listener lacks the handler. -/
inductive DispatchError where
  | valueError
  | nameError (handler : String)
deriving DecidableEq

/-- Embedding of the listener loop in EventDispatcher.dispatch, counting
the handler invocations performed. -/
def dispatch_aux (event : String) : List Listener → Except DispatchError Nat
  | [] => .ok 0
  | item :: rest =>
    if item.hasHandler ("handle_" ++ event) then
      match dispatch_aux event rest with
      | .ok n => .ok (n + 1)
      | .error e => .error e
    else .error (.nameError ("handle_" ++ event))

/-- Embedding of EventDispatcher.dispatch: an unknown event raises
ValueError; otherwise each listener in registration order is re-checked
for the handler (NameError when absent) and its handler invoked. -/
def dispatch (listeners : List Listener) (event : String) :
    Except DispatchError Nat :=
  if events.contains event then dispatch_aux event listeners
  else .error .valueError

end EventDispatcher

/-- Embedding of os.path.basename for forward-slash paths: the final path
component. -/
def basename (p : String) : String :=
  (pySplit p '/').getLastD ""

/-- Entry of a remote folder listing as consumed by the data-file upload
preparation: the file name under attributes.name and the upload link under
links.upload. -/
structure OsfEntry where
  name : String
  upload_link : String
deriving DecidableEq

/-- Observable actions of the data-file upload preparation: presenting the
overwrite-confirmation dialog for a duplicate file name, and issuing an
upload call to a URL. -/
inductive UploadEffect where
  | confirmOverwrite (filename : String)
  | uploadCall (url : String)
deriving DecidableEq

/-- Worker embedding the per-file loop of __prepare_experiment_data_sync.
The upload_url variable is mutated by the loop body exactly as in the
source (both branches reassign it), so it is threaded through the
recursion. The ask argument models the user's answer to the overwrite
question for a given file name (true = Yes). The unreachable branch where
a name is in the listing's name list but no entry carries it cannot occur
(find? succeeds whenever contains does) and aborts the file. -/
def prepare_data_sync_aux (listing : List OsfEntry) (ask : String → Bool) :
    List String → String → List UploadEffect
  | [], _ => []
  | f :: rest, upload_url =>
    let filename := basename f
    if (listing.map (fun e => e.name)).contains filename then
      if !ask filename then
        .confirmOverwrite filename :: prepare_data_sync_aux listing ask rest upload_url
      else
        match listing.find? (fun e => e.name == filename) with
        | some file_on_osf =>
          let new_url := file_on_osf.upload_link ++ "?kind=file"
          .confirmOverwrite filename :: .uploadCall new_url ::
            prepare_data_sync_aux listing ask rest new_url
        | none => [.confirmOverwrite filename]
    else
      let new_url := upload_url ++ "?kind=file&name=" ++ filename
      .uploadCall new_url :: prepare_data_sync_aux listing ask rest new_url

/-- Embedding of OpenScienceFramework.__prepare_experiment_data_sync:
given the folder listing already fetched, the folder's upload link and the
data files to process, produce the dialog and upload actions in order. -/
def prepare_experiment_data_sync (listing : List OsfEntry)
    (upload_url : String) (data_files : List String)
    (ask : String → Bool) : List UploadEffect :=
  prepare_data_sync_aux listing ask data_files upload_url

/-- Persisted experiment variables consulted by event_process_data_files;
a none field means the variable is not set in the experiment's variable
store. -/
structure ExperimentVars where
  osf_datanode_id : Option String
  osf_always_upload_data : Option String
deriving DecidableEq

/-- Observable actions of event_process_data_files: presenting the
upload-permission question, issuing the GET that starts the upload
pipeline, and a raised Python error (from tuple unpacking or endpoint
lookup). -/
inductive DataFilesEffect where
  | promptUpload
  | apiGet (url : String)
  | pyRaised (e : PyError)
deriving DecidableEq

/-- Embedding of OpenScienceFramework.event_process_data_files: return
silently when no data folder is linked (variable unset or falsy) or no
user is logged in; return silently when the data files are exactly one
file named quickrun.csv; otherwise ask for permission unless the
always-upload-data variable equals yes, and on permission resolve the
linked node's endpoint (project_repos for a composite id, file_info for a
plain id) and issue the GET that drives the upload. -/
def event_process_data_files (vars : ExperimentVars) (logged_in : Bool)
    (data_files : List String) (reply_yes : Bool) : List DataFilesEffect :=
  match vars.osf_datanode_id with
  | none => []
  | some node_id =>
    if !pyTruthy node_id then []
    else if !logged_in then []
    else if data_files.length == 1 &&
        basename (data_files.headD "") == "quickrun.csv" then []
    else
      let ask_needed := match vars.osf_always_upload_data with
        | none => true
        | some v => !(v == "yes")
      let getFx :=
        if pyContains node_id ':' then
          match pySplit node_id ':' with
          | [project_id, _repo] =>
            match api_call "project_repos" [project_id] with
            | .ok url => [DataFilesEffect.apiGet url]
            | .error e => [DataFilesEffect.pyRaised e]
          | _ => [DataFilesEffect.pyRaised .valueError]
        else
          match api_call "file_info" [node_id] with
          | .ok url => [DataFilesEffect.apiGet url]
          | .error e => [DataFilesEffect.pyRaised e]
      if ask_needed then
        if !reply_yes then [.promptUpload]
        else .promptUpload :: getFx
      else getFx

/-- Filesystem with a single experiment file whose digest is abc123. -/
def fsA : FileSystem :=
  ⟨fun s => s == "exp.osexp", fun _ => "abc123"⟩

/-- Remote record with digest abc123 and full metadata. -/
def recA : RemoteFileRecord :=
  ⟨some "abc123", some "exp.osexp", some 10, some "2017-01-01T00:00:00",
    some "https://osf.example/dl"⟩

/-- Remote record with digest def456 and full metadata. -/
def recB : RemoteFileRecord :=
  ⟨some "def456", some "exp.osexp", some 10, some "2017-01-01T00:00:00",
    some "https://osf.example/dl"⟩

/-- Remote record missing the sha256 digest. -/
def recNoHash : RemoteFileRecord :=
  ⟨none, some "exp.osexp", some 10, some "2017-01-01T00:00:00",
    some "https://osf.example/dl"⟩

/-- User who answers the version dialog at once, keeping the local
version. -/
def userLocal : UserChoices := ⟨0, .useLocal, 0, none⟩

/-- Claim C1: for every local file and remote record whose sha256 digest
equals the digest of the local file's contents, compare_versions
classifies the pair as in sync, emits exactly one informational
notification, and issues no download call and no write to the local
path. -/
theorem C1_hash_equality_in_sync (fs : FileSystem) (p : String)
    (data : RemoteFileRecord) (user : UserChoices)
    (hfile : fs.isfile p = true)
    (hhash : data.sha256 = some (fs.sha256 p)) :
    (compare_versions fs (some p) data user).2 = CompareOutcome.inSync ∧
    ((compare_versions fs (some p) data user).1.filter isNotifyInfo).length = 1 ∧
    (compare_versions fs (some p) data user).1.filter isDownload = [] ∧
    (compare_versions fs (some p) data user).1.filter (writesTo p) = [] := by
  unfold compare_versions hashfile
  simp [hfile, hhash, isNotifyInfo, isDownload, writesTo]

/-- Witness for C1 at a concrete filesystem, record and user. -/
theorem C1_hash_equality_in_sync_witness :
    fsA.isfile "exp.osexp" = true ∧
    recA.sha256 = some (fsA.sha256 "exp.osexp") ∧
    (compare_versions fsA (some "exp.osexp") recA userLocal).2 =
      CompareOutcome.inSync ∧
    ((compare_versions fsA (some "exp.osexp") recA userLocal).1.filter
      isNotifyInfo).length = 1 ∧
    (compare_versions fsA (some "exp.osexp") recA userLocal).1.filter
      isDownload = [] ∧
    (compare_versions fsA (some "exp.osexp") recA userLocal).1.filter
      (writesTo "exp.osexp") = [] := by
  refine ⟨rfl, rfl, ?_⟩
  exact C1_hash_equality_in_sync fsA "exp.osexp" recA userLocal rfl rfl

/-- Filtering a replicated element for a predicate it fails yields the
empty list. -/
lemma filter_replicate_eq_nil {α : Type} (f : α → Bool) (a : α)
    (h : f a = false) (n : Nat) : (List.replicate n a).filter f = [] := by
  induction n with
  | zero => rfl
  | succ k ih => simp [List.replicate_succ, List.filter_cons, h, ih]

/-- Claim C4: for a local file and a remote record with differing digests
(and full metadata), once the user answers the version dialog, exactly one
binary version choice is presented, it precedes every subsequent action,
and the choice of the local version completes with zero downloads and zero
writes to the local path. -/
theorem C4_mismatch_one_choice (fs : FileSystem) (p : String)
    (data : RemoteFileRecord) (user : UserChoices)
    (rh n dm : String) (sz : Nat)
    (hfile : fs.isfile p = true)
    (hhash : data.sha256 = some rh)
    (hne : (rh == fs.sha256 p) = false)
    (hname : data.name = some n)
    (hsize : data.size = some sz)
    (hmod : data.date_modified = some dm)
    (hanswer : user.dialogCloses = 0) :
    (compare_versions fs (some p) data user).1.take 2 =
      [Effect.hashAttempt p, Effect.versionDialog] ∧
    ((compare_versions fs (some p) data user).1.filter
      isVersionDialog).length = 1 ∧
    (user.choice = VersionChoice.useLocal →
      (compare_versions fs (some p) data user).1 =
        [Effect.hashAttempt p, Effect.versionDialog] ∧
      (compare_versions fs (some p) data user).1.filter isDownload = [] ∧
      (compare_versions fs (some p) data user).1.filter (writesTo p) = [] ∧
      (compare_versions fs (some p) data user).2 =
        CompareOutcome.keptLocal) := by
  unfold compare_versions hashfile
  match hc : user.choice with
  | .useLocal =>
    simp [hfile, hhash, hne, hname, hsize, hmod, hanswer, hc,
      isVersionDialog, isDownload, writesTo]
  | .useRemote =>
    refine ⟨?_, ?_, ?_⟩
    · match hb : user.backupDecision, hd : data.download_link with
      | none, none =>
        simp [hfile, hhash, hne, hname, hsize, hmod, hanswer, hc, hb, hd]
      | none, some url =>
        simp [hfile, hhash, hne, hname, hsize, hmod, hanswer, hc, hb, hd]
      | some d, none =>
        simp [hfile, hhash, hne, hname, hsize, hmod, hanswer, hc, hb, hd]
      | some d, some url =>
        simp [hfile, hhash, hne, hname, hsize, hmod, hanswer, hc, hb, hd]
    · match hb : user.backupDecision, hd : data.download_link with
      | none, none =>
        simp [hfile, hhash, hne, hname, hsize, hmod, hanswer, hc, hb, hd,
          isVersionDialog, List.filter_append,
          filter_replicate_eq_nil isVersionDialog Effect.backupQuestion rfl]
      | none, some url =>
        simp [hfile, hhash, hne, hname, hsize, hmod, hanswer, hc, hb, hd,
          isVersionDialog, List.filter_append,
          filter_replicate_eq_nil isVersionDialog Effect.backupQuestion rfl]
      | some d, none =>
        simp [hfile, hhash, hne, hname, hsize, hmod, hanswer, hc, hb, hd,
          isVersionDialog, List.filter_append,
          filter_replicate_eq_nil isVersionDialog Effect.backupQuestion rfl]
      | some d, some url =>
        simp [hfile, hhash, hne, hname, hsize, hmod, hanswer, hc, hb, hd,
          isVersionDialog, List.filter_append,
          filter_replicate_eq_nil isVersionDialog Effect.backupQuestion rfl]
    · intro hcon
      exact absurd hcon (by simp)

/-- Witness for C4 at a concrete filesystem, record and user. -/
theorem C4_mismatch_one_choice_witness :
    fsA.isfile "exp.osexp" = true ∧
    recB.sha256 = some "def456" ∧
    (("def456" : String) == fsA.sha256 "exp.osexp") = false ∧
    userLocal.dialogCloses = 0 ∧
    userLocal.choice = VersionChoice.useLocal ∧
    (compare_versions fsA (some "exp.osexp") recB userLocal).1 =
      [Effect.hashAttempt "exp.osexp", Effect.versionDialog] ∧
    (compare_versions fsA (some "exp.osexp") recB userLocal).1.filter
      isDownload = [] ∧
    (compare_versions fsA (some "exp.osexp") recB userLocal).2 =
      CompareOutcome.keptLocal := by
  have h := C4_mismatch_one_choice fsA "exp.osexp" recB userLocal
    "def456" "exp.osexp" "2017-01-01T00:00:00" 10 rfl rfl rfl rfl rfl rfl rfl
  have h2 := h.2.2 rfl
  exact ⟨rfl, rfl, rfl, rfl, rfl, h2.1, h2.2.1, h2.2.2.2⟩

/-- Filesystem on which no path names an existing file. -/
def fsNone : FileSystem := ⟨fun _ => false, fun _ => ""⟩

/-- Counterexample to claim C6 as stated: for an invocation whose local
path is unset, a remote record missing the sha256 digest does not make
compare_versions fail with OSFInvalidResponse; the local-file guard
returns first, silently. -/
theorem C6_missing_hash_counterexample :
    compare_versions fsNone none recNoHash userLocal =
      ([Effect.warn], CompareOutcome.noValidFile) ∧
    (compare_versions fsNone none recNoHash userLocal).2 ≠
      CompareOutcome.invalidResponse := by
  exact ⟨rfl, by decide⟩

/-- Claim C6 (amended: provided the local path names an existing file):
for every remote record missing the sha256 digest, compare_versions fails
with OSFInvalidResponse and performs no notification, no user choice and
no transfer (the effect trace is empty). -/
theorem C6_missing_hash_protocol_error (fs : FileSystem) (p : String)
    (data : RemoteFileRecord) (user : UserChoices)
    (hfile : fs.isfile p = true)
    (hnohash : data.sha256 = none) :
    compare_versions fs (some p) data user =
      ([], CompareOutcome.invalidResponse) := by
  unfold compare_versions
  simp [hfile, hnohash]

/-- Witness for the amended C6 at a concrete filesystem and record. -/
theorem C6_missing_hash_protocol_error_witness :
    fsA.isfile "exp.osexp" = true ∧
    recNoHash.sha256 = none ∧
    compare_versions fsA (some "exp.osexp") recNoHash userLocal =
      ([], CompareOutcome.invalidResponse) := by
  exact ⟨rfl, rfl,
    C6_missing_hash_protocol_error fsA "exp.osexp" recNoHash userLocal rfl rfl⟩

/-- Claim C9 exposes a code bug: for the empty-string local path (unset
per the spec), the validity guard is passed because the Python condition
(local_file and not isfile(local_file)) or (local_file is None) is falsy
for the empty string, so compare_versions does not return silently: it
reads the remote digest and attempts to hash the nonexistent empty path,
raising IOError. -/
theorem C9_empty_path_guard_slip :
    compare_versions fsNone (some "") recA userLocal =
      ([Effect.hashAttempt ""], CompareOutcome.ioError) ∧
    (compare_versions fsNone (some "") recA userLocal).1 ≠ [] ∧
    (compare_versions fsNone (some "") recA userLocal).2 ≠
      CompareOutcome.noValidFile := by
  exact ⟨rfl, by decide, by decide⟩

/-- Counterexample to claim C2 as stated: the id a:b:c contains the colon
delimiter, yet get_osf_node_url does not return the repository-listing
endpoint: the two-variable tuple unpacking of the three-part split raises
ValueError. -/
theorem C2_node_url_counterexample :
    pyContains "a:b:c" ':' = true ∧
    get_osf_node_url "a:b:c" = Except.error PyError.valueError := by
  exact ⟨by decide, by decide⟩

/-- Claim C2 (amended: an id whose colon split has exactly two parts): an
id splitting as project-id and repository name resolves through the
repo_files template, an id without a colon resolves through the file_info
template, and in particular proj1:osfstorage yields the repository-listing
endpoint for proj1/osfstorage and a plain id yields the single-file-info
endpoint. -/
theorem C2_node_url_disambiguation (node_id a b : String) :
    (pyContains node_id ':' = true → pySplit node_id ':' = [a, b] →
      get_osf_node_url node_id = api_call "repo_files" [a, b]) ∧
    (pyContains node_id ':' = false →
      get_osf_node_url node_id = api_call "file_info" [node_id]) ∧
    get_osf_node_url "proj1:osfstorage" =
      .ok "https://test-api.osf.io/v2/nodes/proj1/files/osfstorage" ∧
    get_osf_node_url "abc12" =
      .ok "https://test-api.osf.io/v2/files/abc12" := by
  refine ⟨?_, ?_, by decide, by decide⟩
  · intro hc hs
    simp [get_osf_node_url, hc, hs]
  · intro hc
    simp [get_osf_node_url, hc]

/-- Witness for the amended C2 at the concrete composite and plain ids. -/
theorem C2_node_url_disambiguation_witness :
    pyContains "proj1:osfstorage" ':' = true ∧
    pySplit "proj1:osfstorage" ':' = ["proj1", "osfstorage"] ∧
    get_osf_node_url "proj1:osfstorage" =
      api_call "repo_files" ["proj1", "osfstorage"] ∧
    pyContains "abc12" ':' = false ∧
    get_osf_node_url "abc12" = api_call "file_info" ["abc12"] := by
  have h := C2_node_url_disambiguation "proj1:osfstorage" "proj1" "osfstorage"
  have h2 := C2_node_url_disambiguation "abc12" "proj1" "osfstorage"
  exact ⟨by decide, by decide, h.1 (by decide) (by decide), by decide,
    h2.2.1 (by decide)⟩

/-- Counterexample to claim C3 as stated: at the boundary now =
expires_at (so now >= expires_at holds) the wrapper's strict comparison
expires_at < now is false, so the call does not fail with TokenError and
the HTTP request is dispatched. -/
theorem C3_token_expiry_counterexample :
    (1000 : Int) ≤ 1000 ∧
    (requires_authentication ⟨true, ⟨1000⟩⟩ 1000 ⟨200, some ⟨none⟩⟩).dispatched
      = true ∧
    (requires_authentication ⟨true, ⟨1000⟩⟩ 1000 ⟨200, some ⟨none⟩⟩).result
      ≠ CallRes.tokenError := by
  exact ⟨by decide, by decide, by decide⟩

/-- Claim C3 (amended: strictly past expiry): every call through the
requires_authentication wrapper of an authorized session made when now >
token.expires_at fails with TokenError and no HTTP request is
dispatched. -/
theorem C3_token_expiry_gate (s : OAuthSession) (now : Int)
    (resp : HttpResponse)
    (hauth : s.authorized = true)
    (hexp : s.token.expires_at < now) :
    requires_authentication s now resp = ⟨false, CallRes.tokenError⟩ := by
  simp [requires_authentication, hauth, hexp]

/-- Witness for the amended C3 at a concrete session and time. -/
theorem C3_token_expiry_gate_witness :
    (⟨true, ⟨1000⟩⟩ : OAuthSession).authorized = true ∧
    (⟨true, ⟨1000⟩⟩ : OAuthSession).token.expires_at < (1001 : Int) ∧
    requires_authentication ⟨true, ⟨1000⟩⟩ 1001 ⟨200, some ⟨none⟩⟩ =
      ⟨false, CallRes.tokenError⟩ := by
  exact ⟨rfl, by decide,
    C3_token_expiry_gate ⟨true, ⟨1000⟩⟩ 1001 ⟨200, some ⟨none⟩⟩ rfl (by decide)⟩

/-- Counterexample to claim C7 as stated: a non-204 logout response whose
body is not JSON-decodable (e.g. an HTML error page) raises nothing: the
response object is returned with only a logged message. -/
theorem C7_logout_counterexample :
    (500 : Nat) ≠ 204 ∧
    logout ⟨true, ⟨2000⟩⟩ 1000 ⟨500, none⟩ =
      ⟨true, ⟨true, ⟨2000⟩⟩, 0, CallRes.rawResponse 500⟩ ∧
    raisesError (logout ⟨true, ⟨2000⟩⟩ 1000 ⟨500, none⟩).result = false := by
  exact ⟨by decide, by decide, by decide⟩

/-- Claim C7 (amended): for a logout call that passes the wrapper's
pre-checks, a 204 response resets the session to a fresh unauthenticated
one and emits exactly one logout transition, while a non-204 response
leaves the session unchanged, emits none, and raises an error exactly when
the response body decodes to a dict carrying an errors detail (TokenError
for the invalid-token detail, a generic error otherwise). -/
theorem C7_logout_behaviour (s : OAuthSession) (now : Int)
    (resp : HttpResponse)
    (hauth : s.authorized = true)
    (hnotexp : ¬ s.token.expires_at < now) :
    (resp.status_code = 204 →
      (logout s now resp).session = reset_session ∧
      (logout s now resp).session.authorized = false ∧
      (logout s now resp).logoutEvents = 1) ∧
    (resp.status_code ≠ 204 →
      (logout s now resp).session = s ∧
      (logout s now resp).logoutEvents = 0 ∧
      (raisesError (logout s now resp).result = true ↔
        ∃ d, resp.body = some ⟨some d⟩)) := by
  constructor
  · intro h204
    simp [logout, hauth, hnotexp, h204, reset_session]
  · intro hne
    have hb : (resp.status_code == 204) = false := by
      simp [hne]
    refine ⟨by simp [logout, hauth, hnotexp, hb], by simp [logout, hauth, hnotexp, hb], ?_⟩
    have hres : (logout s now resp).result = process_response resp := by
      simp [logout, hauth, hnotexp, hb]
    rw [hres]
    rcases hbody : resp.body with _ | ⟨ed⟩
    · simp [process_response, hbody, raisesError]
    · rcases ed with _ | msg
      · simp [process_response, hbody, raisesError]
      · cases hc : msg == invalid_token_msg with
        | true => simp [process_response, hbody, raisesError, hc]
        | false => simp [process_response, hbody, raisesError, hc]

/-- Witness for the amended C7 at a concrete session and both a 204 and a
non-204 response. -/
theorem C7_logout_behaviour_witness :
    (⟨true, ⟨2000⟩⟩ : OAuthSession).authorized = true ∧
    ¬ (⟨true, ⟨2000⟩⟩ : OAuthSession).token.expires_at < (1000 : Int) ∧
    (logout ⟨true, ⟨2000⟩⟩ 1000 ⟨204, none⟩).session = reset_session ∧
    (logout ⟨true, ⟨2000⟩⟩ 1000 ⟨204, none⟩).logoutEvents = 1 := by
  have h := C7_logout_behaviour ⟨true, ⟨2000⟩⟩ 1000 ⟨204, none⟩ rfl (by decide)
  exact ⟨rfl, by decide, (h.1 rfl).1, (h.1 rfl).2.2⟩

/-- Whether an argument to EventDispatcher.add contains an object that
fails the handler check (the single object itself, or any member of a
list). -/
def has_bad_member : EventDispatcher.AddArg → Bool
  | .single l => !EventDispatcher.listener_ok l
  | .listArg ls => ls.any (fun l => !EventDispatcher.listener_ok l)

/-- The list-argument pre-check succeeds exactly when every member passes
the handler check. -/
lemma check_all_eq_ok_iff (ls : List Listener) :
    EventDispatcher.check_all ls = .ok () ↔
      ls.all EventDispatcher.listener_ok = true := by
  induction ls with
  | nil => simp [EventDispatcher.check_all]
  | cons l rest ih =>
    cases hce : EventDispatcher.check_events l with
    | ok u =>
      cases u
      simp [EventDispatcher.check_all, hce, EventDispatcher.listener_ok, ih]
    | error e =>
      simp [EventDispatcher.check_all, hce, EventDispatcher.listener_ok]

/-- A listener passing the event check has a handler for every event in
the checked list. -/
lemma check_events_aux_ok (item : Listener) (es : List String)
    (h : EventDispatcher.check_events_aux item es = .ok ()) :
    ∀ e ∈ es, item.hasHandler ("handle_" ++ e) = true := by
  induction es with
  | nil => intro e he; cases he
  | cons e rest ih =>
    intro x hx
    by_cases hh : item.hasHandler ("handle_" ++ e) = true
    · rw [EventDispatcher.check_events_aux, if_pos hh] at h
      cases hx with
      | head => exact hh
      | tail _ hmem => exact ih h x hmem
    · rw [EventDispatcher.check_events_aux, if_neg hh] at h
      cases h

/-- The dispatch loop completes when every registered listener has the
event's handler. -/
lemma dispatch_aux_ok (ev : String) (d : List Listener)
    (h : ∀ l ∈ d, l.hasHandler ("handle_" ++ ev) = true) :
    ∃ n, EventDispatcher.dispatch_aux ev d = .ok n := by
  induction d with
  | nil => exact ⟨0, rfl⟩
  | cons l rest ih =>
    have hl := h l (by simp)
    obtain ⟨n, hn⟩ := ih (fun x hx => h x (by simp [hx]))
    refine ⟨n + 1, ?_⟩
    rw [EventDispatcher.dispatch_aux, if_pos hl, hn]

/-- Claim C8: registering an object (or any member of a list of objects)
lacking a handle_login or handle_logout method fails at registration time
with an error, leaving the listener list unchanged (the error result
carries no new list); every successful registration into a well-formed
listener list yields a well-formed list; and dispatch over a well-formed
list never encounters a listener missing a handler (it completes for
every known event). -/
theorem C8_listener_contract (d d' : List Listener)
    (obj arg : EventDispatcher.AddArg) (ev : String) :
    (has_bad_member obj = true →
      ∃ e, EventDispatcher.add d obj = .error e) ∧
    (d.all EventDispatcher.listener_ok = true →
      EventDispatcher.add d arg = .ok d' →
      d'.all EventDispatcher.listener_ok = true) ∧
    (d.all EventDispatcher.listener_ok = true →
      ev ∈ EventDispatcher.events →
      ∃ n, EventDispatcher.dispatch d ev = .ok n) := by
  refine ⟨?_, ?_, ?_⟩
  · intro hbad
    cases obj with
    | single l =>
      cases hce : EventDispatcher.check_events l with
      | ok u =>
        exfalso
        simp [has_bad_member, EventDispatcher.listener_ok, hce] at hbad
      | error e =>
        exact ⟨e, by simp [EventDispatcher.add, hce]⟩
    | listArg ls =>
      cases hca : EventDispatcher.check_all ls with
      | ok u =>
        exfalso
        cases u
        have hall := (check_all_eq_ok_iff ls).mp hca
        simp [has_bad_member, List.any_eq_true] at hbad
        obtain ⟨l, hl, hnot⟩ := hbad
        have := (List.all_eq_true.mp hall) l hl
        simp [this] at hnot
      | error e =>
        exact ⟨e, by simp [EventDispatcher.add, hca]⟩
  · intro hd hadd
    cases arg with
    | single l =>
      cases hce : EventDispatcher.check_events l with
      | ok u =>
        cases u
        simp [EventDispatcher.add, hce] at hadd
        subst hadd
        simp [List.all_append, hd, EventDispatcher.listener_ok, hce]
      | error e =>
        simp [EventDispatcher.add, hce] at hadd
    | listArg ls =>
      cases hca : EventDispatcher.check_all ls with
      | ok u =>
        cases u
        simp [EventDispatcher.add, hca] at hadd
        subst hadd
        have hall := (check_all_eq_ok_iff ls).mp hca
        simp [List.all_append, hd, hall]
      | error e =>
        simp [EventDispatcher.add, hca] at hadd
  · intro hd hev
    have hhandlers : ∀ l ∈ d, l.hasHandler ("handle_" ++ ev) = true := by
      intro l hl
      have hok := (List.all_eq_true.mp hd) l hl
      have hce : EventDispatcher.check_events l = .ok () := by
        unfold EventDispatcher.listener_ok at hok
        cases hce : EventDispatcher.check_events l with
        | ok u => cases u; rfl
        | error e => rw [hce] at hok; cases hok
      exact check_events_aux_ok l EventDispatcher.events hce ev hev
    obtain ⟨n, hn⟩ := dispatch_aux_ok ev d hhandlers
    have hcontains : EventDispatcher.events.contains ev = true := by
      simpa [List.contains] using List.elem_eq_true_of_mem hev
    exact ⟨n, by simp [EventDispatcher.dispatch, hcontains, hn, hev]⟩

/-- Witness for C8 at a concrete dispatcher state: a listener missing
handle_logout is rejected, a complete listener is accepted, and dispatch
of the login event succeeds over the accepted list. -/
theorem C8_listener_contract_witness :
    has_bad_member (.single ⟨fun n => n == "handle_login"⟩) = true ∧
    (∃ e, EventDispatcher.add []
      (.single ⟨fun n => n == "handle_login"⟩) = .error e) ∧
    ([] : List Listener).all EventDispatcher.listener_ok = true ∧
    ("login" : String) ∈ EventDispatcher.events ∧
    (∃ n, EventDispatcher.dispatch [] "login" = .ok n) := by
  have h := C8_listener_contract [] []
    (.single ⟨fun n => n == "handle_login"⟩)
    (.single ⟨fun n => n == "handle_login"⟩) "login"
  exact ⟨rfl, h.1 rfl, rfl, by simp [EventDispatcher.events],
    h.2.2 rfl (by simp [EventDispatcher.events])⟩

/-- Predicate selecting overwrite-confirmation dialog presentations. -/
def isConfirm : UploadEffect → Bool
  | .confirmOverwrite _ => true
  | _ => false

/-- Predicate selecting upload calls. -/
def isUpload : UploadEffect → Bool
  | .uploadCall _ => true
  | _ => false

/-- Claim C5: uploading a file whose name is already present in the
linked folder's listing presents the overwrite confirmation exactly once;
declining issues zero upload calls; accepting issues exactly one upload
call whose URL is the existing file's own upload link suffixed with
?kind=file (the update endpoint), not the folder's create endpoint. -/
theorem C5_duplicate_upload (listing : List OsfEntry)
    (folder_url f : String) (e : OsfEntry) (ask : String → Bool)
    (hmem : (listing.map (fun x => x.name)).contains (basename f) = true)
    (hfind : listing.find? (fun x => x.name == basename f) = some e) :
    ((prepare_experiment_data_sync listing folder_url [f] ask).filter
      isConfirm).length = 1 ∧
    (ask (basename f) = false →
      prepare_experiment_data_sync listing folder_url [f] ask =
        [UploadEffect.confirmOverwrite (basename f)] ∧
      (prepare_experiment_data_sync listing folder_url [f] ask).filter
        isUpload = []) ∧
    (ask (basename f) = true →
      prepare_experiment_data_sync listing folder_url [f] ask =
        [UploadEffect.confirmOverwrite (basename f),
         UploadEffect.uploadCall (e.upload_link ++ "?kind=file")] ∧
      (prepare_experiment_data_sync listing folder_url [f] ask).filter
        isUpload =
        [UploadEffect.uploadCall (e.upload_link ++ "?kind=file")]) := by
  have hemem : e ∈ listing := List.mem_of_find?_eq_some hfind
  have hename : e.name = basename f := by
    have hp := List.find?_some hfind
    simpa using hp
  have hex : ∃ a ∈ listing, a.name = basename f := ⟨e, hemem, hename⟩
  cases hask : ask (basename f) with
  | false =>
    refine ⟨?_, fun _ => ⟨?_, ?_⟩, fun hcon => absurd hcon (by simp)⟩ <;>
      simp [prepare_experiment_data_sync, prepare_data_sync_aux, hex,
        hfind, hask, isConfirm, isUpload]
  | true =>
    refine ⟨?_, fun hcon => absurd hcon (by simp), fun _ => ⟨?_, ?_⟩⟩ <;>
      simp [prepare_experiment_data_sync, prepare_data_sync_aux, hex,
        hfind, hask, isConfirm, isUpload]

/-- Listing of a linked data folder already holding subject-1.csv. -/
def listingA : List OsfEntry :=
  [⟨"subject-1.csv", "https://osf.example/up/xyz"⟩]

/-- Witness for C5 at a concrete listing with a same-named file and a user
who accepts the overwrite. -/
theorem C5_duplicate_upload_witness :
    (listingA.map (fun x => x.name)).contains
      (basename "/data/subject-1.csv") = true ∧
    listingA.find? (fun x => x.name == basename "/data/subject-1.csv") =
      some ⟨"subject-1.csv", "https://osf.example/up/xyz"⟩ ∧
    prepare_experiment_data_sync listingA "https://osf.example/up/folder"
      ["/data/subject-1.csv"] (fun _ => true) =
      [UploadEffect.confirmOverwrite "subject-1.csv",
       UploadEffect.uploadCall "https://osf.example/up/xyz?kind=file"] := by
  have h := C5_duplicate_upload listingA "https://osf.example/up/folder"
    "/data/subject-1.csv" ⟨"subject-1.csv", "https://osf.example/up/xyz"⟩
    (fun _ => true) (by decide) (by decide)
  exact ⟨by decide, by decide, (h.2.2 rfl).1⟩

/-- Claim C10: a data-files list consisting of exactly one file with
basename quickrun.csv makes event_process_data_files return without any
upload activity and without any confirmation prompt, even with a linked
data folder, a logged-in user and the always-upload-data flag set to
yes. -/
theorem C10_quickrun_not_uploaded (vars : ExperimentVars)
    (node_id f : String) (reply : Bool)
    (hnode : vars.osf_datanode_id = some node_id)
    (htruthy : pyTruthy node_id = true)
    (halways : vars.osf_always_upload_data = some "yes")
    (hbase : basename f = "quickrun.csv") :
    event_process_data_files vars true [f] reply = [] := by
  simp [event_process_data_files, hnode, htruthy, hbase, halways]

/-- Witness for C10 at a concrete linked experiment and quickrun file. -/
theorem C10_quickrun_not_uploaded_witness :
    (⟨some "proj1:osfstorage", some "yes"⟩ : ExperimentVars).osf_datanode_id
      = some "proj1:osfstorage" ∧
    pyTruthy "proj1:osfstorage" = true ∧
    basename "/tmp/quickrun.csv" = "quickrun.csv" ∧
    event_process_data_files ⟨some "proj1:osfstorage", some "yes"⟩ true
      ["/tmp/quickrun.csv"] true = [] := by
  exact ⟨rfl, by decide, by decide,
    C10_quickrun_not_uploaded ⟨some "proj1:osfstorage", some "yes"⟩
      "proj1:osfstorage" "/tmp/quickrun.csv" true rfl (by decide) rfl
      (by decide)⟩
